import Mathlib

/-!
Verification development for ihatemoney/forms.py: the field normalizers
(whitespace stripping, comma-decimal normalization, restricted arithmetic
evaluation of amount expressions) and the form validators and
save/update mappings (project, bill, member, invite forms), embedded
shallowly as executable Lean functions.
-/

/-- Exact fraction: model of the Python numbers produced by the restricted
arithmetic evaluator (integers and true division).  Kept unnormalized so
that every operation is plain integer arithmetic. -/
structure Frac where
  num : Int
  den : Int
  deriving DecidableEq, Repr

def Frac.add (a b : Frac) : Frac := ⟨a.num * b.den + b.num * a.den, a.den * b.den⟩

def Frac.sub (a b : Frac) : Frac := ⟨a.num * b.den - b.num * a.den, a.den * b.den⟩

def Frac.mul (a b : Frac) : Frac := ⟨a.num * b.num, a.den * b.den⟩

def Frac.div (a b : Frac) : Frac := ⟨a.num * b.den, a.den * b.num⟩

def Frac.neg (a : Frac) : Frac := ⟨-a.num, a.den⟩

/-- Model of the Python values that flow through the form fields: strings,
ints, floats (as exact fractions), booleans and None. -/
inductive PyVal where
  | str : String → PyVal
  | int : Int → PyVal
  | float : Frac → PyVal
  | bool : Bool → PyVal
  | none : PyVal
  deriving DecidableEq, Repr

/-- Python `==` on the modelled values: equality within a type, numeric
equality across int/float/bool, and `False` across unrelated types — in
particular a `str` never compares equal to an `int`. -/
def pyEq : PyVal → PyVal → Bool
  | .str a, .str b => a == b
  | .int a, .int b => a == b
  | .int a, .float f => a * f.den == f.num
  | .float f, .int a => f.num == a * f.den
  | .float f, .float g => f.num * g.den == g.num * f.den
  | .bool a, .bool b => a == b
  | .bool a, .int b => (if a then (1 : Int) else 0) == b
  | .int a, .bool b => a == (if b then (1 : Int) else 0)
  | .bool a, .float f => (if a then (1 : Int) else 0) * f.den == f.num
  | .float f, .bool b => f.num == (if b then (1 : Int) else 0) * f.den
  | .none, .none => true
  | _, _ => false

/-- Python `str.strip()` on a character list: drop whitespace from both ends. -/
def pyStripChars (cs : List Char) : List Char :=
  ((cs.dropWhile Char.isWhitespace).reverse.dropWhile Char.isWhitespace).reverse

/-- Python `str.strip()`. -/
def pyStrip (s : String) : String := ⟨pyStripChars s.data⟩

/-- Python `str.split(sep)` for a one-character separator, accumulator form. -/
def pySplitAux (sep : Char) : List Char → List Char → List (List Char)
  | [], acc => [acc.reverse]
  | c :: cs, acc =>
    if c == sep then acc.reverse :: pySplitAux sep cs []
    else pySplitAux sep cs (c :: acc)

/-- Python `str.split(sep)` for a one-character separator: the empty string
splits into a single empty piece, exactly as in Python. -/
def pySplit (sep : Char) (s : String) : List String :=
  (pySplitAux sep s.data []).map fun l => ⟨l⟩

def digitVal (c : Char) : Nat := c.toNat - '0'.toNat

def digitsToNat (cs : List Char) : Nat := cs.foldl (fun a c => a * 10 + digitVal c) 0

/-- Numeric value of a decimal literal with integer part `ip` and fractional
part `fp` (either may be empty, not both). -/
def numOfParts (ip fp : List Char) : Frac :=
  ⟨((digitsToNat ip * 10 ^ fp.length + digitsToNat fp : Nat) : Int),
   ((10 ^ fp.length : Nat) : Int)⟩

/-- Decimal digits of a natural number, fuel-driven. -/
def natToStrAux : Nat → Nat → List Char → List Char
  | 0, _, acc => acc
  | fuel + 1, n, acc =>
    let d := Char.ofNat (48 + n % 10)
    if n < 10 then d :: acc else natToStrAux fuel (n / 10) (d :: acc)

def natToStr (n : Nat) : String := ⟨natToStrAux (n + 1) n []⟩

def intToStr (i : Int) : String :=
  if i < 0 then "-" ++ natToStr i.natAbs else natToStr i.natAbs

/-- Python `str()` applied to the result of the arithmetic evaluator.
Integer values print exactly as Python prints an int; non-integer values
are shown as exact fractions (no claim depends on their text). -/
def pyStr (f : Frac) : String :=
  if f.den = 1 then intToStr f.num
  else intToStr f.num ++ "/" ++ intToStr f.den

/-- Tokens of the restricted arithmetic grammar. -/
inductive Tok where
  | num : Frac → Tok
  | plus : Tok
  | minus : Tok
  | star : Tok
  | slash : Tok
  | lparen : Tok
  | rparen : Tok
  deriving DecidableEq, Repr

/-- Tokenizer for the restricted arithmetic grammar: decimal literals, the
four operators, parentheses; whitespace is skipped (Python tolerates it
around tokens).  Fuel-driven; any other character is an error. -/
def tokenize : Nat → List Char → Except String (List Tok)
  | 0, _ => .error "tokenizer fuel exhausted"
  | _ + 1, [] => .ok []
  | fuel + 1, c :: cs =>
    if c.isWhitespace then tokenize fuel cs
    else if c == '+' then (tokenize fuel cs).map fun ts => Tok.plus :: ts
    else if c == '-' then (tokenize fuel cs).map fun ts => Tok.minus :: ts
    else if c == '*' then (tokenize fuel cs).map fun ts => Tok.star :: ts
    else if c == '/' then (tokenize fuel cs).map fun ts => Tok.slash :: ts
    else if c == '(' then (tokenize fuel cs).map fun ts => Tok.lparen :: ts
    else if c == ')' then (tokenize fuel cs).map fun ts => Tok.rparen :: ts
    else if c.isDigit || c == '.' then
      let (ip, r1) := (c :: cs).span Char.isDigit
      match r1 with
      | '.' :: r2 =>
        let (fp, r3) := r2.span Char.isDigit
        if ip.isEmpty && fp.isEmpty then .error "invalid number"
        else (tokenize fuel r3).map fun ts => Tok.num (numOfParts ip fp) :: ts
      | _ => (tokenize fuel r1).map fun ts => Tok.num (numOfParts ip []) :: ts
    else .error "disallowed character"

mutual

/-- expr := term (("+" | "-") term)* -/
def parseExpr : Nat → List Tok → Except String (Frac × List Tok)
  | 0, _ => .error "parser fuel exhausted"
  | fuel + 1, ts => do
    let (v, r) ← parseTerm fuel ts
    parseExprRest fuel v r

def parseExprRest : Nat → Frac → List Tok → Except String (Frac × List Tok)
  | 0, _, _ => .error "parser fuel exhausted"
  | fuel + 1, v, Tok.plus :: ts => do
    let (w, r) ← parseTerm fuel ts
    parseExprRest fuel (v.add w) r
  | fuel + 1, v, Tok.minus :: ts => do
    let (w, r) ← parseTerm fuel ts
    parseExprRest fuel (v.sub w) r
  | _ + 1, v, ts => .ok (v, ts)

/-- term := factor (("*" | "/") factor)* -/
def parseTerm : Nat → List Tok → Except String (Frac × List Tok)
  | 0, _ => .error "parser fuel exhausted"
  | fuel + 1, ts => do
    let (v, r) ← parseFactor fuel ts
    parseTermRest fuel v r

def parseTermRest : Nat → Frac → List Tok → Except String (Frac × List Tok)
  | 0, _, _ => .error "parser fuel exhausted"
  | fuel + 1, v, Tok.star :: ts => do
    let (w, r) ← parseFactor fuel ts
    parseTermRest fuel (v.mul w) r
  | fuel + 1, v, Tok.slash :: ts => do
    let (w, r) ← parseFactor fuel ts
    if w.num = 0 then .error "division by zero"
    else parseTermRest fuel (v.div w) r
  | _ + 1, v, ts => .ok (v, ts)

/-- factor := number | "(" expr ")" -/
def parseFactor : Nat → List Tok → Except String (Frac × List Tok)
  | 0, _ => .error "parser fuel exhausted"
  | _ + 1, Tok.num r :: ts => .ok (r, ts)
  | fuel + 1, Tok.lparen :: ts => do
    let (v, r) ← parseExpr fuel ts
    match r with
    | Tok.rparen :: r2 => .ok (v, r2)
    | _ => .error "expected closing parenthesis"
  | _ + 1, _ => .error "syntax error"

end

/-- Modelled from the spec: `ihatemoney.utils.eval_arithmetic_expression` is
not under src/.  Per spec sections 4.1 and 9 it is a tiny recursive-descent
arithmetic evaluator over the four operators `+ - * /` and parentheses,
with no exponentiation; evaluation is deterministic and side-effect-free;
syntax errors and division by zero are reported as errors (Python raises
ValueError there).  Exact fractions stand in for Python numerics. -/
def eval_arithmetic_expression (s : String) : Except String Frac :=
  match tokenize (s.data.length + 1) s.data with
  | .error e => .error e
  | .ok [] => .error "empty expression"
  | .ok ts =>
    match parseExpr (4 * ts.length + 4) ts with
    | .ok (v, []) => .ok v
    | .ok (_, _ :: _) => .error "unexpected trailing tokens"
    | .error e => .error e

/-- Character-wise `str.replace(",", ".")`. -/
def replChar (c : Char) : Char := if c = ',' then '.' else c

/-- `value.replace(",", ".")` as performed by `CommaDecimalField` and
`CalculatorStringField` before any further processing. -/
def replaceComma (s : String) : String := ⟨s.data.map replChar⟩

/-- The character class of the amount regex
`[ 0-9\.\+\-\*/\(\)]`: space, digits, period, the four operators and
parentheses. -/
def allowedAmountChar (c : Char) : Bool :=
  c == ' ' || (decide ('0' ≤ c) && decide (c ≤ '9')) || c == '.' || c == '+' ||
    c == '-' || c == '*' || c == '/' || c == '(' || c == ')'

/-- Python `$` matches at the end of the string or just before one trailing
newline; the anchored match therefore checks the string with one final
newline removed, if present. -/
def stripTrailingNewline (cs : List Char) : List Char :=
  match cs.reverse with
  | c :: rest => if c = '\n' then rest.reverse else cs
  | [] => cs

/-- Semantics of Python `re.match(r"^[ 0-9\.\+\-\*/\(\)]{0,200}$", value)`:
at most 200 characters from the class, with a single trailing newline
tolerated by the `$` anchor. -/
def regexMatchAmount (cs : List Char) : Bool :=
  decide ((stripTrailingNewline cs).length ≤ 200) &&
    (stripTrailingNewline cs).all allowedAmountChar

/-- Python `"**" in value`. -/
def hasDoubleStar : List Char → Bool
  | '*' :: '*' :: _ => true
  | _ :: rest => hasDoubleStar rest
  | [] => false

def amountErrMsg : String :=
  "Not a valid amount or expression. Only numbers and + - * / operators are accepted."

/-- `CalculatorStringField.process_formdata` on the submitted string: replace
commas by periods; reject unless the result matches the anchored character
class regex and contains no `**`; otherwise evaluate the arithmetic
expression (whose own failures also surface as validation errors). -/
def CalculatorStringField_process (raw : String) : Except String Frac :=
  let value := replaceComma raw
  if !(regexMatchAmount value.data) || hasDoubleStar value.data then
    .error amountErrMsg
  else eval_arithmetic_expression value

/-- The data actually stored on the amount field: the code assigns
`valuelist[0] = str(eval_arithmetic_expression(value))` and the base
`StringField` keeps that string, so the field data is a Python `str`. -/
def amountFieldData (raw : String) : Except String PyVal :=
  (CalculatorStringField_process raw).map fun r => PyVal.str (pyStr r)

/-- `BillForm.validate_amount`: raises when `field.data == 0` under Python
equality. -/
def BillForm_validate_amount (data : PyVal) : Except String Unit :=
  if pyEq data (PyVal.int 0) then .error "Bills can not be null" else .ok ()

/-- Modelled third-party collaborator: `decimal.Decimal(str)` as used by the
wtforms `DecimalField`, restricted to plain decimal literals with an
optional sign. -/
def parseDecimal (s : String) : Except String Frac :=
  match s.data with
  | [] => .error "Not a valid decimal value"
  | cs =>
    let (neg, cs2) :=
      match cs with
      | '-' :: rest => (true, rest)
      | '+' :: rest => (false, rest)
      | _ => (false, cs)
    let (ip, r1) := cs2.span Char.isDigit
    match r1 with
    | [] =>
      if ip.isEmpty then .error "Not a valid decimal value"
      else .ok (if neg then (numOfParts ip []).neg else numOfParts ip [])
    | '.' :: r2 =>
      let (fp, r3) := r2.span Char.isDigit
      if r3.isEmpty && !(ip.isEmpty && fp.isEmpty) then
        .ok (if neg then (numOfParts ip fp).neg else numOfParts ip fp)
      else .error "Not a valid decimal value"
    | _ => .error "Not a valid decimal value"

/-- `CommaDecimalField.process_formdata`: replace commas by periods, then the
base `DecimalField` parses the decimal. -/
def CommaDecimalField_process (raw : String) : Except String Frac :=
  parseDecimal (replaceComma raw)

/-- `strip_filter`: `try: return string.strip() except Exception: return
string` — modelled with the strip attempt as a fallible call. -/
def py_strip_method : PyVal → Except String PyVal
  | .str s => .ok (.str (pyStrip s))
  | _ => .error "AttributeError"

def strip_filter (v : PyVal) : PyVal :=
  match py_strip_method v with
  | .ok r => r
  | .error _ => v

/-- Modelled from the spec: `ihatemoney.models.LoggingMode` is not under
src/.  Per the spec, the project-level logging preference is one of
disabled / enabled / enabled-with-IP. -/
inductive LoggingMode where
  | DISABLED : LoggingMode
  | ENABLED : LoggingMode
  | RECORD_IP : LoggingMode
  deriving DecidableEq, Repr

/-- Modelled third-party collaborator (werkzeug): a salted password hash.
Hashing the same password with different salts yields different hash
values, and verification checks the password against the hash. -/
structure PasswordHash where
  salt : Nat
  source : String
  deriving DecidableEq, Repr

def generate_password_hash (salt : Nat) (password : String) : PasswordHash :=
  ⟨salt, password⟩

def check_password_hash (h : PasswordHash) (password : String) : Bool :=
  h.source == password

structure Project where
  id : String
  name : String
  password : PasswordHash
  contact_email : String
  logging_preference : LoggingMode
  default_currency : String
  deriving DecidableEq, Repr

/-- The submitted data of an `EditProjectForm` (the `password` field holds
the submitted plaintext private code). -/
structure EditProjectForm where
  name : String
  password : String
  contact_email : String
  project_history : Bool
  ip_recording : Bool
  default_currency : String
  deriving DecidableEq, Repr

/-- `EditProjectForm.logging_preference`: derived from the two toggles. -/
def EditProjectForm.logging_preference (f : EditProjectForm) : LoggingMode :=
  if !f.project_history then LoggingMode.DISABLED
  else if f.ip_recording then LoggingMode.RECORD_IP
  else LoggingMode.ENABLED

/-- `EditProjectForm.save`: build a new `Project` from the form data (the
`id` comes from the subclass field; the salt models the randomness of the
password hasher). -/
def EditProjectForm.save (salt : Nat) (id : String) (f : EditProjectForm) : Project :=
  ⟨id, f.name, generate_password_hash salt f.password, f.contact_email,
   f.logging_preference, f.default_currency⟩

/-- `EditProjectForm.update`: copy the form data onto the project; the
password is re-hashed only when the submitted plaintext does not verify
against the stored hash.  `project.switch_currency` is modelled as setting
the default currency (its bill conversion lives outside this module). -/
def EditProjectForm.update (salt : Nat) (f : EditProjectForm) (p : Project) : Project :=
  { p with
    name := f.name
    password :=
      if check_password_hash p.password f.password then p.password
      else generate_password_hash salt f.password
    contact_email := f.contact_email
    logging_preference := f.logging_preference
    default_currency := f.default_currency }

/-- `ProjectForm.save`: the browser omits unchecked boolean fields, so the
creation path first overwrites the two toggles from the global default
logging mode, then builds the project as `EditProjectForm.save` does.
Returns the mutated form together with the created project. -/
def ProjectForm_save (salt : Nat) (defaultMode : LoggingMode) (id : String)
    (f : EditProjectForm) : EditProjectForm × Project :=
  let f2 := { f with
    project_history := decide (defaultMode ≠ LoggingMode.DISABLED)
    ip_recording := decide (defaultMode = LoggingMode.RECORD_IP) }
  (f2, EditProjectForm.save salt id f2)

/-- Modelled from the spec: `ihatemoney.utils.slugify` is not under src/.
Per spec section 6 it is an identifier slugification utility, free text →
URL-safe identifier: here lowercased alphanumerics with spaces turned into
hyphens and other characters dropped. -/
def slugifyChars : List Char → List Char
  | [] => []
  | c :: cs =>
    if c == ' ' then '-' :: slugifyChars cs
    else if c.isAlphanum then c.toLower :: slugifyChars cs
    else slugifyChars cs

def slugify (s : String) : String := ⟨slugifyChars s.data⟩

def projectIdExistsMsg (slug : String) : String :=
  "A project with this identifier (\"" ++ slug ++
    "\") already exists. Please choose a new identifier"

/-- `ProjectForm.validate_id`: slugify the submitted identifier, then reject
when it is the reserved word "dashboard" or an existing project id; the
slug replaces the field data on success. -/
def ProjectForm_validate_id (existing : List String) (raw : String) :
    Except String String :=
  let slug := slugify raw
  if slug == "dashboard" || existing.contains slug then
    .error (projectIdExistsMsg slug)
  else .ok slug

/-- A `Person` row as seen by the member-name uniqueness query. -/
structure Person where
  name : String
  project : String
  activated : Bool
  deriving DecidableEq, Repr

/-- `MemberForm.validate_name`: reject a name equal to the field default;
then, unless editing, reject when the project has an active member of that
name (`Person.query.filter(...).all()` is truthy iff some row matches). -/
def MemberForm_validate_name (persons : List Person) (proj : String) (edit : Bool)
    (deflt : Option String) (data : String) : Except String Unit :=
  if deflt == some data then .error "User name incorrect"
  else if !edit &&
      persons.any fun p => p.name == data && p.project == proj && p.activated then
    .error "This project already have this member"
  else .ok ()

/-- Modelled third-party collaborator: `email_validator.validate_email` as a
syntactic check — one `@` separating a nonempty local part from a domain of
at least two nonempty dot-separated labels. -/
def emailValid (s : String) : Bool :=
  match pySplit '@' s with
  | [lp, dom] =>
    !lp.isEmpty && !dom.isEmpty &&
      (let labels := pySplit '.' dom
       decide (labels.length ≥ 2) && labels.all fun l => !l.isEmpty)
  | _ => false

def inviteErrMsg (e : String) : String := "The email " ++ e ++ " is not valid"

/-- Loop body of `InviteForm.validate_emails`: validate each address in
order, raising on the first invalid one. -/
def validateEmailList : List String → Except String Unit
  | [] => .ok ()
  | e :: rest =>
    if emailValid e then validateEmailList rest
    else .error (inviteErrMsg e)

/-- `InviteForm.validate_emails`: split the submitted string on commas, strip
each piece, validate each address in order. -/
def InviteForm_validate_emails (raw : String) : Except String Unit :=
  validateEmailList ((pySplit ',' raw).map pyStrip)

/-! ### Shared helper lemmas -/

theorem replChar_idem (c : Char) : replChar (replChar c) = replChar c := by
  by_cases h : c = ','
  · rw [h]; decide
  · simp [replChar, h]

theorem map_replChar_idem (l : List Char) :
    (l.map replChar).map replChar = l.map replChar := by
  induction l with
  | nil => rfl
  | cons c cs ih => simp [replChar_idem, ih]

theorem replaceComma_idem (s : String) :
    replaceComma (replaceComma s) = replaceComma s := by
  show String.mk ((s.data.map replChar).map replChar) = String.mk (s.data.map replChar)
  rw [map_replChar_idem]

theorem check_password_hash_generate (salt : Nat) (pw : String) :
    check_password_hash (generate_password_hash salt pw) pw = true := by
  simp [check_password_hash, generate_password_hash]

theorem validateEmailList_eq_find (l : List String) :
    validateEmailList l =
      (match l.find? (fun e => !emailValid e) with
        | some e => Except.error (inviteErrMsg e)
        | none => Except.ok ()) := by
  induction l with
  | nil => rfl
  | cons e rest ih =>
    by_cases h : emailValid e
    · simpa [validateEmailList, List.find?_cons, h] using ih
    · simp [validateEmailList, List.find?_cons, h]

theorem stripTrailingNewline_append_newline (l : List Char) :
    stripTrailingNewline (l ++ ['\n']) = l := by
  have h : (l ++ ['\n']).reverse = '\n' :: l.reverse := by simp
  unfold stripTrailingNewline
  rw [h]
  simp

theorem stripTrailingNewline_not_newline (cs : List Char)
    (h : ∀ l : List Char, cs ≠ l ++ ['\n']) : stripTrailingNewline cs = cs := by
  unfold stripTrailingNewline
  rcases hrev : cs.reverse with _ | ⟨c, rest⟩
  · rfl
  · by_cases hc : c = '\n'
    · exfalso
      apply h rest.reverse
      subst hc
      have h2 := congrArg List.reverse hrev
      simpa [List.reverse_cons] using h2
    · show (if c = '\n' then rest.reverse else cs) = cs
      rw [if_neg hc]

theorem regexMatchAmount_iff (cs : List Char) :
    regexMatchAmount cs = true ↔
      (cs.length ≤ 200 ∧ cs.all allowedAmountChar = true) ∨
      (∃ core : List Char, cs = core ++ ['\n'] ∧ core.length ≤ 200 ∧
        core.all allowedAmountChar = true) := by
  have hnl : allowedAmountChar '\n' = false := by decide
  by_cases hend : ∃ l : List Char, cs = l ++ ['\n']
  · rcases hend with ⟨l, rfl⟩
    simp only [regexMatchAmount, stripTrailingNewline_append_newline]
    constructor
    · intro hl
      rw [Bool.and_eq_true] at hl
      rcases hl with ⟨hlen, hall⟩
      exact Or.inr ⟨l, rfl, of_decide_eq_true hlen, hall⟩
    · rintro (⟨hlen, hall⟩ | ⟨core, heq, hlen, hall⟩)
      · rw [List.all_append] at hall
        simp [hnl] at hall
      · have hcore : l = core := by
          have h3 := congrArg List.reverse heq
          simpa [List.reverse_append] using h3
        subst hcore
        simp [hlen, hall]
  · push_neg at hend
    simp only [regexMatchAmount]
    rw [stripTrailingNewline_not_newline cs hend]
    constructor
    · intro hl
      rw [Bool.and_eq_true] at hl
      rcases hl with ⟨hlen, hall⟩
      exact Or.inl ⟨of_decide_eq_true hlen, hall⟩
    · rintro (⟨hlen, hall⟩ | ⟨core, heq, hlen, hall⟩)
      · simp [hlen, hall]
      · exact absurd heq (hend core)

/-! ### Claim theorems -/

/-- C1: the code does not reject zero-valued amounts.  The amount field
stores `str(eval_arithmetic_expression(value))` — a Python `str` — so for
the input "2-2" the field data is the string "0"; `validate_amount`
compares that `str` against the `int` 0, which is always `False` under
Python equality, so validation passes instead of raising
"Bills can not be null".  The last conjunct shows no string-valued amount
is ever rejected. -/
theorem billform_zero_amount_not_rejected :
    CalculatorStringField_process "2-2" = Except.ok ⟨0, 1⟩ ∧
    amountFieldData "2-2" = Except.ok (PyVal.str "0") ∧
    BillForm_validate_amount (PyVal.str "0") = Except.ok () ∧
    pyEq (PyVal.str "0") (PyVal.int 0) = false ∧
    (∀ s : String, BillForm_validate_amount (PyVal.str s) = Except.ok ()) :=
  ⟨rfl, rfl, rfl, rfl, fun _ => rfl⟩

/-- C2 counterexample: "1\n+1" consists only of digits, whitespace and the
allowed operators, is at most 200 characters long and contains no `**`,
yet processing rejects it — the regex character class contains only the
space character, not arbitrary whitespace — even though the expression
itself evaluates to 2. -/
theorem calculator_whitespace_counterexample :
    CalculatorStringField_process "1\n+1" = Except.error amountErrMsg ∧
    (List.all "1\n+1".data fun c =>
      c.isDigit || c.isWhitespace || c == '+' || c == '-' || c == '*' ||
        c == '/' || c == '(' || c == ')' || c == '.') = true ∧
    "1\n+1".data.length ≤ 200 ∧
    hasDoubleStar "1\n+1".data = false ∧
    eval_arithmetic_expression "1\n+1" = Except.ok ⟨2, 1⟩ :=
  ⟨rfl, rfl, by decide, rfl, rfl⟩

/-- C2 (amended): after replacing commas with periods, a string passes the
pattern check iff it is at most 200 characters drawn from digits, the
space character, periods and the operators `+ - * / ( )` — optionally
followed by a single trailing newline, which Python's `$` anchor
tolerates; a passing string without `**` is handed to the arithmetic
evaluator and its numeric result (or evaluation failure) is the outcome;
any other string is rejected with the validation error. -/
theorem calculator_process_spec (raw : String) :
    (regexMatchAmount (replaceComma raw).data = true →
      hasDoubleStar (replaceComma raw).data = false →
      CalculatorStringField_process raw =
        eval_arithmetic_expression (replaceComma raw)) ∧
    (regexMatchAmount (replaceComma raw).data = false ∨
        hasDoubleStar (replaceComma raw).data = true →
      CalculatorStringField_process raw = Except.error amountErrMsg) ∧
    (regexMatchAmount (replaceComma raw).data = true ↔
      ((replaceComma raw).data.length ≤ 200 ∧
        (replaceComma raw).data.all allowedAmountChar = true) ∨
      (∃ core : List Char, (replaceComma raw).data = core ++ ['\n'] ∧
        core.length ≤ 200 ∧ core.all allowedAmountChar = true)) := by
  refine ⟨?_, ?_, regexMatchAmount_iff _⟩
  · intro h1 h2
    simp [CalculatorStringField_process, h1, h2]
  · intro h
    rcases h with h | h
    · simp [CalculatorStringField_process, h]
    · simp [CalculatorStringField_process, h]

/-- C2 witness: concrete instances of the amended statement — an accepted
plain expression, an accepted expression with a trailing newline, and two
rejections (exponentiation, disallowed characters). -/
theorem calculator_process_spec_witness :
    CalculatorStringField_process "1+1" =
      eval_arithmetic_expression (replaceComma "1+1") ∧
    CalculatorStringField_process "1+1\n" =
      eval_arithmetic_expression (replaceComma "1+1\n") ∧
    CalculatorStringField_process "2**3" = Except.error amountErrMsg ∧
    CalculatorStringField_process "abc" = Except.error amountErrMsg ∧
    eval_arithmetic_expression "1+1" = Except.ok ⟨2, 1⟩ :=
  ⟨(calculator_process_spec "1+1").1 (by decide) (by decide),
   (calculator_process_spec "1+1\n").1 (by decide) (by decide),
   (calculator_process_spec "2**3").2.1 (Or.inr (by decide)),
   (calculator_process_spec "abc").2.1 (Or.inl (by decide)),
   rfl⟩

/-- C3: creating a project whose slugified identifier is the reserved word
"dashboard" or collides with an existing project id always fails
validation, for every store state containing such a project. -/
theorem projectform_validate_id_rejects (existing : List String) (raw : String)
    (h : slugify raw = "dashboard" ∨ existing.contains (slugify raw) = true) :
    ProjectForm_validate_id existing raw =
      Except.error (projectIdExistsMsg (slugify raw)) := by
  unfold ProjectForm_validate_id
  rcases h with h | h
  · simp [h]
  · have hm : slugify raw ∈ existing := by simpa using h
    simp [hm]

/-- C3 witness: the reserved identifier and a colliding identifier are both
rejected against the concrete store ["trip"]. -/
theorem projectform_validate_id_rejects_witness :
    ProjectForm_validate_id ["trip"] "Dashboard" =
      Except.error (projectIdExistsMsg (slugify "Dashboard")) ∧
    ProjectForm_validate_id ["trip"] "Trip" =
      Except.error (projectIdExistsMsg (slugify "Trip")) :=
  ⟨projectform_validate_id_rejects ["trip"] "Dashboard" (Or.inl (by decide)),
   projectform_validate_id_rejects ["trip"] "Trip" (Or.inr (by decide))⟩

/-- C4: member-name validation — a name equal to the field default is
rejected; outside edit mode a name carried by an active member of the same
project is rejected while a name all of whose bearers in the project are
deactivated is accepted; in edit mode the duplicate check never runs. -/
theorem memberform_validate_name_spec (persons : List Person) (proj : String)
    (edit : Bool) (deflt : Option String) (data : String) :
    (deflt = some data →
      MemberForm_validate_name persons proj edit deflt data =
        Except.error "User name incorrect") ∧
    (deflt ≠ some data → edit = false →
      (persons.any fun p => p.name == data && p.project == proj && p.activated) = true →
      MemberForm_validate_name persons proj edit deflt data =
        Except.error "This project already have this member") ∧
    (deflt ≠ some data → edit = false →
      (persons.any fun p => p.name == data && p.project == proj && p.activated) = false →
      MemberForm_validate_name persons proj edit deflt data = Except.ok ()) ∧
    (deflt ≠ some data → edit = true →
      MemberForm_validate_name persons proj edit deflt data = Except.ok ()) := by
  refine ⟨?_, ?_, ?_, ?_⟩
  · intro h
    simp [MemberForm_validate_name, h]
  · intro h he ha
    subst he
    simp [MemberForm_validate_name, h, ha]
  · intro h he ha
    subst he
    simp [MemberForm_validate_name, h, ha]
  · intro h he
    subst he
    simp [MemberForm_validate_name, h]

/-- C4 witness: with an active "Alice" in project "p" the name "Alice" is
rejected when adding; with only a deactivated "Alice" it is accepted; in
edit mode it is accepted despite the active "Alice"; a name equal to the
field default is rejected. -/
theorem memberform_validate_name_witness :
    MemberForm_validate_name [⟨"Alice", "p", true⟩] "p" false (some "Alice") "Alice" =
      Except.error "User name incorrect" ∧
    MemberForm_validate_name [⟨"Alice", "p", true⟩] "p" false none "Alice" =
      Except.error "This project already have this member" ∧
    MemberForm_validate_name [⟨"Alice", "p", false⟩] "p" false none "Alice" =
      Except.ok () ∧
    MemberForm_validate_name [⟨"Alice", "p", true⟩] "p" true none "Alice" =
      Except.ok () :=
  ⟨(memberform_validate_name_spec _ _ _ _ _).1 rfl,
   (memberform_validate_name_spec _ _ _ _ _).2.1 (by decide) rfl (by decide),
   (memberform_validate_name_spec _ _ _ _ _).2.2.1 (by decide) rfl (by decide),
   (memberform_validate_name_spec _ _ _ _ _).2.2.2 (by decide) rfl⟩

/-- C5: on update, the stored password hash is kept exactly when the
submitted plaintext verifies against it, and is replaced by a fresh hash
of the submitted code exactly when verification fails. -/
theorem editproject_update_password (salt : Nat) (f : EditProjectForm) (p : Project) :
    ((EditProjectForm.update salt f p).password =
      if check_password_hash p.password f.password then p.password
      else generate_password_hash salt f.password) ∧
    (check_password_hash p.password f.password = true →
      (EditProjectForm.update salt f p).password = p.password) ∧
    (check_password_hash p.password f.password = false →
      (EditProjectForm.update salt f p).password = generate_password_hash salt f.password) := by
  refine ⟨rfl, ?_, ?_⟩
  · intro h
    simp [EditProjectForm.update, h]
  · intro h
    simp [EditProjectForm.update, h]

/-- C5 witness: resubmitting the stored code leaves the hash (salt 3)
byte-identical; submitting a different code replaces it with a hash under
the fresh salt 7. -/
theorem editproject_update_password_witness :
    (EditProjectForm.update 7 ⟨"n", "code", "e", true, false, "XXX"⟩
        ⟨"id", "n0", generate_password_hash 3 "code", "e0", LoggingMode.DISABLED, "XXX"⟩).password =
      generate_password_hash 3 "code" ∧
    (EditProjectForm.update 7 ⟨"n", "new", "e", true, false, "XXX"⟩
        ⟨"id", "n0", generate_password_hash 3 "code", "e0", LoggingMode.DISABLED, "XXX"⟩).password =
      generate_password_hash 7 "new" :=
  ⟨(editproject_update_password 7 _ _).2.1 (by decide),
   (editproject_update_password 7 _ _).2.2 (by decide)⟩

/-- C6: comma-decimal input and period-decimal input produce the same value
on both the weight field and the amount field: each processing function is
invariant under replacing commas by periods, and "1,5" and "1.5" give
equal results on both fields. -/
theorem comma_period_equivalent (s : String) :
    CommaDecimalField_process s = CommaDecimalField_process (replaceComma s) ∧
    CalculatorStringField_process s = CalculatorStringField_process (replaceComma s) ∧
    CommaDecimalField_process "1,5" = CommaDecimalField_process "1.5" ∧
    CalculatorStringField_process "1,5" = CalculatorStringField_process "1.5" := by
  refine ⟨?_, ?_, rfl, rfl⟩
  · show parseDecimal (replaceComma s) = parseDecimal (replaceComma (replaceComma s))
    rw [replaceComma_idem]
  · simp only [CalculatorStringField_process, replaceComma_idem]

/-- C7: invite validation splits the submitted string on commas, strips each
address, and validates them independently in order: the outcome is
determined by the first invalid address if any, and on the concrete input
"a@x.com, not-an-email, b@y.com" the error identifies "not-an-email". -/
theorem inviteform_validate_emails_spec (raw : String) :
    InviteForm_validate_emails raw =
      (match ((pySplit ',' raw).map pyStrip).find? (fun e => !emailValid e) with
        | some e => Except.error (inviteErrMsg e)
        | none => Except.ok ()) ∧
    InviteForm_validate_emails "a@x.com, not-an-email, b@y.com" =
      Except.error (inviteErrMsg "not-an-email") :=
  ⟨validateEmailList_eq_find _, rfl⟩

/-- C8: the logging preference is selected from the two boolean toggles —
history off gives DISABLED, history on with IP off gives ENABLED, history
on with IP on gives RECORD_IP — and both the update path and the creation
path store exactly the preference derived from the form's toggle data
(the creation path first resets the toggles from the default mode, since
browsers omit unchecked boxes). -/
theorem logging_preference_from_toggles :
    (∀ f : EditProjectForm, f.logging_preference =
      (if f.project_history then
        (if f.ip_recording then LoggingMode.RECORD_IP else LoggingMode.ENABLED)
       else LoggingMode.DISABLED)) ∧
    (∀ (salt : Nat) (f : EditProjectForm) (p : Project),
      (EditProjectForm.update salt f p).logging_preference = f.logging_preference) ∧
    (∀ (salt : Nat) (id : String) (f : EditProjectForm),
      (EditProjectForm.save salt id f).logging_preference = f.logging_preference) ∧
    (∀ (salt : Nat) (dm : LoggingMode) (id : String) (f : EditProjectForm),
      ((ProjectForm_save salt dm id f).2).logging_preference =
        ((ProjectForm_save salt dm id f).1).logging_preference) := by
  refine ⟨?_, fun _ _ _ => rfl, fun _ _ _ => rfl, fun _ _ _ _ => rfl⟩
  intro f
  by_cases h : f.project_history
  · by_cases h2 : f.ip_recording <;> simp [EditProjectForm.logging_preference, h, h2]
  · simp [EditProjectForm.logging_preference, h]

/-- C9: `strip_filter` is total over every modelled Python value: strings
come back whitespace-stripped, every non-string value (None included) is
returned unchanged because the `strip` attribute error is caught. -/
theorem strip_filter_spec :
    (∀ s : String, strip_filter (PyVal.str s) = PyVal.str (pyStrip s)) ∧
    strip_filter PyVal.none = PyVal.none ∧
    (∀ n : Int, strip_filter (PyVal.int n) = PyVal.int n) ∧
    (∀ f : Frac, strip_filter (PyVal.float f) = PyVal.float f) ∧
    (∀ b : Bool, strip_filter (PyVal.bool b) = PyVal.bool b) ∧
    py_strip_method PyVal.none = Except.error "AttributeError" :=
  ⟨fun _ => rfl, rfl, fun _ => rfl, fun _ => rfl, fun _ => rfl, rfl⟩

/-- C10: submitting an empty emails string always fails: Python splits the
empty string into a single empty address, the validator rejects it, so the
whole validation errors. -/
theorem inviteform_empty_emails_rejected :
    pySplit ',' "" = [""] ∧
    emailValid "" = false ∧
    InviteForm_validate_emails "" = Except.error (inviteErrMsg "") :=
  ⟨rfl, rfl, rfl⟩
